import Mathlib

/-
Verification of the remote-package crate (src/lib.rs, src/debian.rs, src/rpm.rs).

Embedding conventions:
- A byte stream is a `List Nat` (byte values).  A readable body is the list of
  bytes it will deliver plus a flag saying whether, after those bytes, a read
  returns an I/O error instead of a clean EOF (`Body`).
- External collaborators (the reqwest HTTP client, the infer signature
  sniffer, the debpkg and fez parsers) are modelled at their interface
  boundary: classification and parsing are parameters of `from_url`, and the
  parsed handles (`Control`, `RpmHeader`) are structures exposing exactly the
  accessor surface the crate uses.
- The crate's own logic (the peek/chain pipeline in `from_url`, the adapter
  accessors, the `rsplit_once` iteration rule) is translated directly.
-/

/-- Bytes delivered by a sequential readable source, with `truncErr = true`
meaning that a read past the listed bytes yields an I/O error rather than EOF. -/
structure Body where
  bytes : List Nat
  truncErr : Bool
deriving DecidableEq, Repr

/-- Model of `debpkg::Error` (external Debian parser library error). -/
inductive DebpkgError
  | mk (msg : String)
deriving DecidableEq, Repr

/-- Model of `fez::RPMError` (external RPM parser library error). -/
inductive RpmLibError
  | mk (msg : String)
deriving DecidableEq, Repr

/-- Model of `reqwest::Error` (external HTTP client error). -/
inductive HttpErr
  | mk (msg : String)
deriving DecidableEq, Repr

/-- The crate's error enum `PkgError` from src/lib.rs. -/
inductive PkgError
  | DebPkgError (e : DebpkgError)
  | RpmError (e : RpmLibError)
  | HTTPError (e : HttpErr)
  | InferError
  | DebianControlFieldNotFound (field : String)
  | UnknownPackageType (hint : String)
deriving DecidableEq, Repr

/-- The crate's `RemotePackageType` enum. -/
inductive RemotePackageType
  | Deb
  | Rpm
deriving DecidableEq, Repr

/-- Model of `debpkg::Control` at its interface boundary: `name()`,
`version()` and `get(field)` as used by src/debian.rs. -/
structure Control where
  name : String
  version : String
  fields : List (String × String)
deriving DecidableEq, Repr

/-- `Control::get` field lookup, an optional value. -/
def Control.get (c : Control) (f : String) : Option String :=
  (c.fields.find? (fun kv => kv.1 == f)).map (fun kv => kv.2)

deriving instance DecidableEq for Except

/-- Model of the fez `header` accessor surface used by src/rpm.rs:
`get_name`, `get_version`, `get_release`, `get_arch`, each fallible. -/
structure RpmHeader where
  get_name : Except RpmLibError String
  get_version : Except RpmLibError String
  get_release : Except RpmLibError String
  get_arch : Except RpmLibError String
deriving DecidableEq, Repr

/-- Model of `fez::RPMPackageMetadata`, holding the header. -/
structure RPMPackageMetadata where
  header : RpmHeader
deriving DecidableEq, Repr

/-- `DebianRemotePackage` from src/debian.rs: owns the parsed control data. -/
structure DebianRemotePackage where
  control : Control
deriving DecidableEq, Repr

/-- `RpmRemotePackage` from src/rpm.rs: owns the parsed metadata. -/
structure RpmRemotePackage where
  metadata : RPMPackageMetadata
deriving DecidableEq, Repr

/-- `DebianRemotePackage::package_type`. -/
def DebianRemotePackage.package_type (_p : DebianRemotePackage) : RemotePackageType :=
  RemotePackageType.Deb

/-- `DebianRemotePackage::package_name`: `Ok(self.control.name())`. -/
def DebianRemotePackage.package_name (p : DebianRemotePackage) : Except PkgError String :=
  Except.ok p.control.name

/-- `DebianRemotePackage::package_version`: `Ok(self.control.version())`. -/
def DebianRemotePackage.package_version (p : DebianRemotePackage) : Except PkgError String :=
  Except.ok p.control.version

/-- `DebianRemotePackage::package_arch`:
`self.control.get("Architecture").ok_or_else(|| DebianControlFieldNotFound("Architecture"))`. -/
def DebianRemotePackage.package_arch (p : DebianRemotePackage) : Except PkgError String :=
  match p.control.get "Architecture" with
  | some v => Except.ok v
  | none => Except.error (PkgError.DebianControlFieldNotFound "Architecture")

/-- Rust `str::rsplit_once` on a list of characters: split at the LAST
occurrence of `c`, returning the part before and the part after it. -/
def rsplitOnceChars (c : Char) : List Char → Option (List Char × List Char)
  | [] => none
  | x :: xs =>
    match rsplitOnceChars c xs with
    | some q => some (x :: q.1, q.2)
    | none => if x = c then some ([], xs) else none

/-- Rust `str::rsplit_once` on strings. -/
def rsplitOnce (s : String) (c : Char) : Option (String × String) :=
  (rsplitOnceChars c s.data).map (fun q => (String.mk q.1, String.mk q.2))

/-- `DebianRemotePackage::package_iteration`:
`version.rsplit_once('-').map(|(_prefix, suffix)| suffix)`. -/
def DebianRemotePackage.package_iteration (p : DebianRemotePackage) : Option String :=
  (rsplitOnce p.control.version '-').map (fun q => q.2)

/-- `RpmRemotePackage::package_type`. -/
def RpmRemotePackage.package_type (_p : RpmRemotePackage) : RemotePackageType :=
  RemotePackageType.Rpm

/-- `RpmRemotePackage::package_name`: `Ok(self.metadata.header.get_name()?)`. -/
def RpmRemotePackage.package_name (p : RpmRemotePackage) : Except PkgError String :=
  match p.metadata.header.get_name with
  | Except.ok s => Except.ok s
  | Except.error e => Except.error (PkgError.RpmError e)

/-- `RpmRemotePackage::package_version`: `Ok(self.metadata.header.get_version()?)`. -/
def RpmRemotePackage.package_version (p : RpmRemotePackage) : Except PkgError String :=
  match p.metadata.header.get_version with
  | Except.ok s => Except.ok s
  | Except.error e => Except.error (PkgError.RpmError e)

/-- `RpmRemotePackage::package_iteration`: `self.metadata.header.get_release().ok()`. -/
def RpmRemotePackage.package_iteration (p : RpmRemotePackage) : Option String :=
  p.metadata.header.get_release.toOption

/-- `RpmRemotePackage::package_arch`: `Ok(self.metadata.header.get_arch()?)`. -/
def RpmRemotePackage.package_arch (p : RpmRemotePackage) : Except PkgError String :=
  match p.metadata.header.get_arch with
  | Except.ok s => Except.ok s
  | Except.error e => Except.error (PkgError.RpmError e)

/-- The closed set of package values behind `Box<dyn RemotePackage>` as
produced by `from_url`. -/
inductive RemotePkgValue
  | deb (p : DebianRemotePackage)
  | rpm (p : RpmRemotePackage)
deriving DecidableEq, Repr

/-- `DebianRemotePackage::new_from_read`, with the external debpkg pipeline
(`DebPkg::parse`, `pkg.control()`, `Control::extract`, all erroring with
`debpkg::Error` which `?` converts to `PkgError::DebPkgError`) collapsed into
one interface-boundary parse function. -/
def DebianRemotePackage.new_from_read (parse : Body → Except DebpkgError Control)
    (r : Body) : Except PkgError DebianRemotePackage :=
  match parse r with
  | Except.ok control => Except.ok ⟨control⟩
  | Except.error e => Except.error (PkgError.DebPkgError e)

/-- `RpmRemotePackage::new_from_read`, with the external fez pipeline
(`RpmPkgReader::parse`, `package.metadata()`, erroring with `fez::RPMError`
which `?` converts to `PkgError::RpmError`) collapsed into one
interface-boundary parse function. -/
def RpmRemotePackage.new_from_read (parse : Body → Except RpmLibError RPMPackageMetadata)
    (r : Body) : Except PkgError RpmRemotePackage :=
  match parse r with
  | Except.ok metadata => Except.ok ⟨metadata⟩
  | Except.error e => Except.error (PkgError.RpmError e)

/-- The infer crate's classification surface used by `from_url`:
`infer::get(..).map(|t| t.extension())`, `infer::archive::is_deb`,
`infer::archive::is_rpm`, each applied to the peeked bytes. -/
structure Sniffer where
  ext : List Nat → Option String
  is_deb : List Nat → Bool
  is_rpm : List Nat → Bool

/-- The two external format parsers handed to the factory. -/
structure Adapters where
  debParse : Body → Except DebpkgError Control
  rpmParse : Body → Except RpmLibError RPMPackageMetadata

/-- The peek window: `response.take(1024)` in src/lib.rs line 98. -/
def peekWindow : Nat := 1024

/-- The peek read of `from_url`: `reader.read_to_end(&mut infer_buf)
.map_err(|_| PkgError::InferError)?` on `response.take(1024)`.  It reads
`min(1024, available)` bytes; an I/O error hit before the limit is filled
becomes `InferError`. -/
def peekRead (b : Body) : Except PkgError (List Nat) :=
  if b.bytes.length < peekWindow ∧ b.truncErr = true then
    Except.error PkgError.InferError
  else
    Except.ok (b.bytes.take peekWindow)

/-- `std::io::Cursor::new(infer_buf).chain(reader.into_inner())`: the
reconstructed stream first yields the retained peek bytes, then the unread
remainder of the source. -/
def chain (buf rest : List Nat) : List Nat :=
  buf ++ rest

/-- The dispatch part of `from_url` after a successful peek: classify the
peeked bytes, rebuild the stream, and hand it to at most one adapter. -/
def dispatch (debEnabled rpmEnabled : Bool) (sn : Sniffer) (ad : Adapters)
    (body : Body) (infer_buf : List Nat) : Except PkgError RemotePkgValue :=
  let ext := sn.ext infer_buf
  let is_deb := sn.is_deb infer_buf
  let is_rpm := sn.is_rpm infer_buf
  let rsp : Body := ⟨chain infer_buf (body.bytes.drop peekWindow), body.truncErr⟩
  if debEnabled && is_deb then
    (DebianRemotePackage.new_from_read ad.debParse rsp).map RemotePkgValue.deb
  else if rpmEnabled && is_rpm then
    (RpmRemotePackage.new_from_read ad.rpmParse rsp).map RemotePkgValue.rpm
  else
    Except.error (PkgError.UnknownPackageType (ext.getD "unknown"))

/-- `from_url` from src/lib.rs.  `debEnabled`/`rpmEnabled` model the
`debian`/`rpm` cargo features gating the two dispatch blocks; `send` is the
outcome of `client.get(url).send()`. -/
def from_url (debEnabled rpmEnabled : Bool) (sn : Sniffer) (ad : Adapters)
    (send : Except HttpErr Body) : Except PkgError RemotePkgValue :=
  match send with
  | Except.error e => Except.error (PkgError.HTTPError e)
  | Except.ok body =>
    match peekRead body with
    | Except.error e => Except.error e
    | Except.ok infer_buf => dispatch debEnabled rpmEnabled sn ad body infer_buf

/-- A spec-side rendering of the iteration rule, written from the spec's
words ("split on the last `-`; everything after it is the iteration if a `-`
exists, else none") for comparison with the code's `package_iteration`. -/
def iterationSpec (version : String) : Option String :=
  if version.data.contains '-' then some ((version.splitOn "-").getLastD "")
  else none

-- Concrete instances used by the witness theorems below.

/-- A sniffer that recognizes nothing and offers no hint. -/
def snNone : Sniffer :=
  ⟨fun _ => none, fun _ => false, fun _ => false⟩

/-- A sniffer that classifies everything as Debian. -/
def snDeb : Sniffer :=
  ⟨fun _ => some "deb", fun _ => true, fun _ => false⟩

/-- A sniffer that classifies everything as RPM. -/
def snRpm : Sniffer :=
  ⟨fun _ => some "rpm", fun _ => false, fun _ => true⟩

/-- Example control data for witnesses. -/
def ctrlExample : Control :=
  ⟨"debian-faq", "10.1", [("Architecture", "all")]⟩

/-- Example RPM header for witnesses, with all lookups succeeding. -/
def hdrExample : RpmHeader :=
  ⟨Except.ok "kibana", Except.ok "8.2.1", Except.ok "1", Except.ok "x86_64"⟩

/-- Adapters whose parses always succeed. -/
def adOk : Adapters :=
  ⟨fun _ => Except.ok ctrlExample, fun _ => Except.ok ⟨hdrExample⟩⟩

/-- Adapters whose parses always fail. -/
def adFail : Adapters :=
  ⟨fun _ => Except.error (DebpkgError.mk "bad"), fun _ => Except.error (RpmLibError.mk "bad")⟩

/-- An empty body with clean EOF. -/
def bodyEmpty : Body := ⟨[], false⟩

/-- An empty body whose first read fails with an I/O error. -/
def bodyErr : Body := ⟨[], true⟩

-- Helper lemmas about rsplitOnceChars.

/-- If `c` does not occur in `l`, `rsplit_once` finds nothing. -/
theorem rsplitOnceChars_eq_none (c : Char) (l : List Char) (h : c ∉ l) :
    rsplitOnceChars c l = none := by
  induction l with
  | nil => rfl
  | cons x xs ih =>
    have hx : ¬ x = c := by
      intro he
      exact h (by simp [he])
    have hxs : c ∉ xs := fun hm => h (List.mem_cons_of_mem _ hm)
    simp [rsplitOnceChars, ih hxs, hx]

/-- If `c` occurs in `l`, `rsplit_once` splits at its LAST occurrence: the
returned suffix is `c`-free and rebuilding the pieces gives back `l`. -/
theorem rsplitOnceChars_eq_some (c : Char) (l : List Char) (h : c ∈ l) :
    ∃ p s, rsplitOnceChars c l = some (p, s) ∧ l = p ++ c :: s ∧ c ∉ s := by
  induction l with
  | nil => cases h
  | cons x xs ih =>
    by_cases hm : c ∈ xs
    · obtain ⟨p, s, hr, he, hn⟩ := ih hm
      refine ⟨x :: p, s, ?_, ?_, hn⟩
      · simp [rsplitOnceChars, hr]
      · simp [he]
    · have hx : x = c := by
        rcases List.mem_cons.mp h with h1 | h2
        · exact h1.symm
        · exact absurd h2 hm
      refine ⟨[], xs, ?_, by simp [hx], hm⟩
      simp [rsplitOnceChars, rsplitOnceChars_eq_none c xs hm, hx]

/-- C1: the reconstructed stream (retained peek bytes chained with the unread
remainder) is byte-for-byte the original stream, for every stream and window. -/
theorem stream_round_trip :
    (∀ (S : List Nat) (K : Nat), chain (S.take K) (S.drop K) = S) ∧
    (∀ b : Body, chain (b.bytes.take peekWindow) (b.bytes.drop peekWindow) = b.bytes) := by
  constructor
  · intro S K
    simp [chain]
  · intro b
    simp [chain]

/-- C2: for every parsed Debian package, `package_iteration` is the substring
after the LAST hyphen of the version when a hyphen exists (the returned
suffix is hyphen-free and rebuilding prefix, hyphen and suffix gives back the
version), and is `none` when the version has no hyphen; concretely
"1.2.3-4" yields "4", "1.2.3" yields none, and "1.2-3-4" yields "4". -/
theorem debian_iteration_last_hyphen (p : DebianRemotePackage) :
    ('-' ∈ p.control.version.data →
      ∃ pre t, p.package_iteration = some t ∧
        p.control.version.data = pre ++ '-' :: t.data ∧ '-' ∉ t.data) ∧
    ('-' ∉ p.control.version.data → p.package_iteration = none) ∧
    DebianRemotePackage.package_iteration ⟨⟨"a", "1.2.3-4", []⟩⟩ = some "4" ∧
    DebianRemotePackage.package_iteration ⟨⟨"a", "1.2.3", []⟩⟩ = none ∧
    DebianRemotePackage.package_iteration ⟨⟨"a", "1.2-3-4", []⟩⟩ = some "4" := by
  refine ⟨?_, ?_, by decide, by decide, by decide⟩
  · intro h
    obtain ⟨q, s, hr, he, hn⟩ := rsplitOnceChars_eq_some '-' p.control.version.data h
    refine ⟨q, String.mk s, ?_, he, hn⟩
    simp [DebianRemotePackage.package_iteration, rsplitOnce, hr]
  · intro h
    simp [DebianRemotePackage.package_iteration, rsplitOnce,
      rsplitOnceChars_eq_none '-' p.control.version.data h]

/-- Witness for C2 at versions "1.2-3-4" and "1.2.3". -/
theorem debian_iteration_last_hyphen_witness :
    (∃ pre t, DebianRemotePackage.package_iteration ⟨⟨"a", "1.2-3-4", []⟩⟩ = some t ∧
      ("1.2-3-4" : String).data = pre ++ '-' :: t.data ∧ '-' ∉ t.data) ∧
    DebianRemotePackage.package_iteration ⟨⟨"a", "1.2.3", []⟩⟩ = none :=
  ⟨(debian_iteration_last_hyphen ⟨⟨"a", "1.2-3-4", []⟩⟩).1 (by decide),
   (debian_iteration_last_hyphen ⟨⟨"a", "1.2.3", []⟩⟩).2.1 (by decide)⟩

/-- C3: when the peek succeeds but classification recognizes no enabled
format (not classified Debian with the debian feature on, nor RPM with the
rpm feature on), `from_url` returns `UnknownPackageType` carrying the
sniffer's extension hint, or "unknown" when the sniffer offers none; it
returns this error, never success. -/
theorem unknown_package_type (debE rpmE : Bool) (sn : Sniffer) (ad : Adapters)
    (b : Body) (buf : List Nat) (hp : peekRead b = Except.ok buf)
    (hd : (debE && sn.is_deb buf) = false)
    (hr : (rpmE && sn.is_rpm buf) = false) :
    from_url debE rpmE sn ad (Except.ok b) =
      Except.error (PkgError.UnknownPackageType ((sn.ext buf).getD "unknown")) := by
  simp [from_url, hp, dispatch, hd, hr]

/-- Witness for C3: a sniffer with no hint on an empty body. -/
theorem unknown_package_type_witness :
    from_url true true snNone adOk (Except.ok bodyEmpty) =
      Except.error (PkgError.UnknownPackageType "unknown") :=
  unknown_package_type true true snNone adOk bodyEmpty [] rfl rfl rfl

/-- C4: at most one adapter runs per call.  If the Debian branch is taken and
its parse fails with `e`, the result is exactly `DebPkgError e` and does not
depend on the RPM parser (any replacement gives the same result); if the RPM
branch is taken and its parse fails with `e`, the result is exactly
`RpmError e` and does not depend on the Debian parser. -/
theorem single_adapter_dispatch (debE rpmE : Bool) (sn : Sniffer) (ad : Adapters)
    (b : Body) (buf : List Nat) (hp : peekRead b = Except.ok buf) :
    (∀ e, (debE && sn.is_deb buf) = true →
      ad.debParse ⟨chain buf (b.bytes.drop peekWindow), b.truncErr⟩ = Except.error e →
      from_url debE rpmE sn ad (Except.ok b) = Except.error (PkgError.DebPkgError e) ∧
      ∀ rp, from_url debE rpmE sn ⟨ad.debParse, rp⟩ (Except.ok b) =
        Except.error (PkgError.DebPkgError e)) ∧
    (∀ e, (debE && sn.is_deb buf) = false → (rpmE && sn.is_rpm buf) = true →
      ad.rpmParse ⟨chain buf (b.bytes.drop peekWindow), b.truncErr⟩ = Except.error e →
      from_url debE rpmE sn ad (Except.ok b) = Except.error (PkgError.RpmError e) ∧
      ∀ dp, from_url debE rpmE sn ⟨dp, ad.rpmParse⟩ (Except.ok b) =
        Except.error (PkgError.RpmError e)) := by
  constructor
  · intro e hd hf
    constructor
    · simp [from_url, hp, dispatch, hd, DebianRemotePackage.new_from_read, hf, Except.map]
    · intro rp
      simp [from_url, hp, dispatch, hd, DebianRemotePackage.new_from_read, hf, Except.map]
  · intro e hd hr hf
    constructor
    · simp [from_url, hp, dispatch, hd, hr, RpmRemotePackage.new_from_read, hf, Except.map]
    · intro dp
      simp [from_url, hp, dispatch, hd, hr, RpmRemotePackage.new_from_read, hf, Except.map]

/-- Witness for C4: failing parses on both branches, with the other branch's
parser swapped out to show independence. -/
theorem single_adapter_dispatch_witness :
    from_url true true snDeb adFail (Except.ok bodyEmpty) =
      Except.error (PkgError.DebPkgError (DebpkgError.mk "bad")) ∧
    from_url true true snDeb ⟨adFail.debParse, fun _ => Except.ok ⟨hdrExample⟩⟩
      (Except.ok bodyEmpty) = Except.error (PkgError.DebPkgError (DebpkgError.mk "bad")) ∧
    from_url true true snRpm adFail (Except.ok bodyEmpty) =
      Except.error (PkgError.RpmError (RpmLibError.mk "bad")) ∧
    from_url true true snRpm ⟨fun _ => Except.ok ctrlExample, adFail.rpmParse⟩
      (Except.ok bodyEmpty) = Except.error (PkgError.RpmError (RpmLibError.mk "bad")) := by
  have h1 := (single_adapter_dispatch true true snDeb adFail bodyEmpty [] rfl).1
    (DebpkgError.mk "bad") rfl rfl
  have h2 := (single_adapter_dispatch true true snRpm adFail bodyEmpty [] rfl).2
    (RpmLibError.mk "bad") rfl rfl rfl
  exact ⟨h1.1, h1.2 _, h2.1, h2.2 _⟩

/-- C5: an I/O failure while reading the peek window (fewer bytes than the
window available and the source erroring) makes `from_url` fail with
`InferError`, a variant distinct from every parser failure kind
(`DebPkgError`, `RpmError`, `DebianControlFieldNotFound`). -/
theorem peek_failure_infer_error (debE rpmE : Bool) (sn : Sniffer) (ad : Adapters)
    (b : Body) (h1 : b.bytes.length < peekWindow) (h2 : b.truncErr = true) :
    from_url debE rpmE sn ad (Except.ok b) = Except.error PkgError.InferError ∧
    (∀ e, PkgError.InferError ≠ PkgError.DebPkgError e) ∧
    (∀ e, PkgError.InferError ≠ PkgError.RpmError e) ∧
    (∀ f, PkgError.InferError ≠ PkgError.DebianControlFieldNotFound f) := by
  refine ⟨?_, fun e h => PkgError.noConfusion h, fun e h => PkgError.noConfusion h,
    fun f h => PkgError.noConfusion h⟩
  simp [from_url, peekRead, h1, h2]

/-- Witness for C5: an erroring empty body. -/
theorem peek_failure_infer_error_witness :
    from_url true true snNone adOk (Except.ok bodyErr) = Except.error PkgError.InferError ∧
    PkgError.InferError ≠ PkgError.DebPkgError (DebpkgError.mk "bad") ∧
    PkgError.InferError ≠ PkgError.RpmError (RpmLibError.mk "bad") ∧
    PkgError.InferError ≠ PkgError.DebianControlFieldNotFound "Architecture" := by
  have h := peek_failure_infer_error true true snNone adOk bodyErr (by decide) rfl
  exact ⟨h.1, h.2.1 _, h.2.2.1 _, h.2.2.2 _⟩

/-- C6: RPM `package_iteration` returns the header release field when its
lookup succeeds and `none` (not an error) when the lookup fails. -/
theorem rpm_iteration_release (p : RpmRemotePackage) :
    (∀ s, p.metadata.header.get_release = Except.ok s → p.package_iteration = some s) ∧
    (∀ e, p.metadata.header.get_release = Except.error e → p.package_iteration = none) := by
  constructor
  · intro s h
    simp [RpmRemotePackage.package_iteration, h, Except.toOption]
  · intro e h
    simp [RpmRemotePackage.package_iteration, h, Except.toOption]

/-- An RPM header whose release lookup fails, for the C6 witness. -/
def hdrNoRelease : RpmHeader :=
  ⟨Except.ok "kibana", Except.ok "8.2.1", Except.error (RpmLibError.mk "absent"),
   Except.ok "x86_64"⟩

/-- Witness for C6: release present and release absent. -/
theorem rpm_iteration_release_witness :
    RpmRemotePackage.package_iteration ⟨⟨hdrExample⟩⟩ = some "1" ∧
    RpmRemotePackage.package_iteration ⟨⟨hdrNoRelease⟩⟩ = none :=
  ⟨(rpm_iteration_release ⟨⟨hdrExample⟩⟩).1 "1" rfl,
   (rpm_iteration_release ⟨⟨hdrNoRelease⟩⟩).2 (RpmLibError.mk "absent") rfl⟩

/-- C7: Debian `package_arch` returns the control "Architecture" field when
present and fails with `DebianControlFieldNotFound "Architecture"` when the
field is absent. -/
theorem debian_arch_lookup (p : DebianRemotePackage) :
    (∀ v, p.control.get "Architecture" = some v → p.package_arch = Except.ok v) ∧
    (p.control.get "Architecture" = none →
      p.package_arch = Except.error (PkgError.DebianControlFieldNotFound "Architecture")) := by
  constructor
  · intro v h
    simp [DebianRemotePackage.package_arch, h]
  · intro h
    simp [DebianRemotePackage.package_arch, h]

/-- Control data with no Architecture field, for the C7 witness. -/
def ctrlNoArch : Control := ⟨"debian-faq", "10.1", []⟩

/-- Witness for C7: architecture present and absent. -/
theorem debian_arch_lookup_witness :
    DebianRemotePackage.package_arch ⟨ctrlExample⟩ = Except.ok "all" ∧
    DebianRemotePackage.package_arch ⟨ctrlNoArch⟩ =
      Except.error (PkgError.DebianControlFieldNotFound "Architecture") :=
  ⟨(debian_arch_lookup ⟨ctrlExample⟩).1 "all" rfl,
   (debian_arch_lookup ⟨ctrlNoArch⟩).2 rfl⟩

/-- C8: every accessor is computed only from the metadata stored at
construction: two packages with the same stored control/header metadata agree
on name, version, arch and iteration, so repeated calls on the same value
return identical results with no re-read of the source. -/
theorem accessors_metadata_only :
    (∀ p q : DebianRemotePackage, p.control = q.control →
      p.package_name = q.package_name ∧ p.package_version = q.package_version ∧
      p.package_arch = q.package_arch ∧ p.package_iteration = q.package_iteration) ∧
    (∀ p q : RpmRemotePackage, p.metadata = q.metadata →
      p.package_name = q.package_name ∧ p.package_version = q.package_version ∧
      p.package_arch = q.package_arch ∧ p.package_iteration = q.package_iteration) := by
  constructor
  · intro p q h
    cases p
    cases q
    cases h
    exact ⟨rfl, rfl, rfl, rfl⟩
  · intro p q h
    cases p
    cases q
    cases h
    exact ⟨rfl, rfl, rfl, rfl⟩

/-- Witness for C8 at concrete Debian and RPM packages. -/
theorem accessors_metadata_only_witness :
    DebianRemotePackage.package_name ⟨ctrlExample⟩ =
      DebianRemotePackage.package_name ⟨ctrlExample⟩ ∧
    RpmRemotePackage.package_iteration ⟨⟨hdrExample⟩⟩ =
      RpmRemotePackage.package_iteration ⟨⟨hdrExample⟩⟩ :=
  ⟨(accessors_metadata_only.1 ⟨ctrlExample⟩ ⟨ctrlExample⟩ rfl).1,
   (accessors_metadata_only.2 ⟨⟨hdrExample⟩⟩ ⟨⟨hdrExample⟩⟩ rfl).2.2.2⟩

/-- C9: the peek window is 1024 bytes; a successful peek retains at most that
many bytes, exactly the window-limited prefix of the source, all of the
source when it is shorter than the window, and `from_url` classifies and
dispatches on exactly those retained bytes. -/
theorem peek_bounded (b : Body) (buf : List Nat) (hp : peekRead b = Except.ok buf) :
    peekWindow = 1024 ∧ buf.length ≤ peekWindow ∧ buf = b.bytes.take peekWindow ∧
    (b.bytes.length ≤ peekWindow → buf = b.bytes) ∧
    (∀ debE rpmE sn ad, from_url debE rpmE sn ad (Except.ok b) =
      dispatch debE rpmE sn ad b buf) := by
  have hb : buf = b.bytes.take peekWindow := by
    unfold peekRead at hp
    split at hp
    · cases hp
    · injection hp with h
      exact h.symm
  refine ⟨rfl, ?_, hb, ?_, ?_⟩
  · rw [hb, List.length_take]
    omega
  · intro hlen
    rw [hb]
    exact List.take_of_length_le hlen
  · intro debE rpmE sn ad
    simp [from_url, hp]

/-- Witness for C9 on an empty body. -/
theorem peek_bounded_witness :
    ([] : List Nat).length ≤ peekWindow ∧
    ([] : List Nat) = bodyEmpty.bytes ∧
    from_url true true snNone adOk (Except.ok bodyEmpty) =
      dispatch true true snNone adOk bodyEmpty [] := by
  have h := peek_bounded bodyEmpty [] rfl
  exact ⟨h.2.1, h.2.2.2.1 (by decide), h.2.2.2.2 true true snNone adOk⟩

/-- C10: Debian `package_name` and `package_version` always succeed, returning
the control file's name and version; neither ever returns an error, despite
the fallible signature of the trait. -/
theorem debian_name_version_infallible (p : DebianRemotePackage) :
    p.package_name = Except.ok p.control.name ∧
    p.package_version = Except.ok p.control.version ∧
    (∀ e, p.package_name ≠ Except.error e) ∧
    (∀ e, p.package_version ≠ Except.error e) := by
  refine ⟨rfl, rfl, ?_, ?_⟩
  · intro e h
    simp [DebianRemotePackage.package_name] at h
  · intro e h
    simp [DebianRemotePackage.package_version] at h

/-- Witness for C10: concrete control data. -/
theorem debian_name_version_infallible_witness :
    DebianRemotePackage.package_name ⟨ctrlExample⟩ = Except.ok "debian-faq" ∧
    DebianRemotePackage.package_version ⟨ctrlExample⟩ = Except.ok "10.1" :=
  ⟨(debian_name_version_infallible ⟨ctrlExample⟩).1,
   (debian_name_version_infallible ⟨ctrlExample⟩).2.1⟩
